import Mathlib

/-!
Verification of the `generateCaption` endpoint of the ai-caption-api
repository (src/api/generateCaption.js), as a shallow embedding in Lean.

JSON values flowing through the handler are modelled by `JSValue`
(JSON numbers are modelled as integers; no claim involves fractional
client input).  JavaScript float arithmetic inside the validator
(`cleanedLength * 3 / 4` and the division by `1024 * 1024`) is exact for
every input the code can see (dyadic values far below 2 to the 53), so it
is embedded as exact rational arithmetic over `ℚ`.  Validation error
messages are embedded as the inductive `VError`, one constructor per
`errors.push` site in the source, carrying every interpolated value; the
surrounding literal text of each message is recorded in the constructor
doc comments.  The single outbound `fetch` of a request is modelled by a
`FetchOutcome` value supplied by the environment; `Date.now`-derived data
(the request id and the measured processing time) are likewise handler
parameters.
-/

namespace CaptionApi

/-- A JavaScript/JSON value, as far as the endpoint inspects one. -/
inductive JSValue where
  | null
  | undefined
  | bool (b : Bool)
  | num (n : Int)
  | str (s : String)
  | obj (fields : List (String × JSValue))

/-- JavaScript truthiness of a `JSValue`. -/
def truthy : JSValue → Bool
  | .null => false
  | .undefined => false
  | .bool b => b
  | .num n => decide (n ≠ 0)
  | .str s => decide (s ≠ "")
  | .obj _ => true

/-- JavaScript `typeof`. -/
def jsTypeof : JSValue → String
  | .null => "object"
  | .undefined => "undefined"
  | .bool _ => "boolean"
  | .num _ => "number"
  | .str _ => "string"
  | .obj _ => "object"

/-- Property access `v[key]`: on objects the last binding of the key wins
(as in a parsed JSON object); on every non-object the result is
`undefined`. -/
def getField (v : JSValue) (key : String) : JSValue :=
  match v with
  | .obj fields =>
    match fields.reverse.find? (fun p => p.1 == key) with
    | some p => p.2
    | none => .undefined
  | _ => .undefined

/-- Strict equality with the literal `true` (`x === true`). -/
def isTrueLiteral : JSValue → Bool
  | .bool true => true
  | _ => false

/-- The character class of the JavaScript regex `\s` (whitespace). -/
def isJsSpace (c : Char) : Bool :=
  c = ' ' || c = '\t' || c = '\n' || c.toNat = 11 || c.toNat = 12 || c = '\r' ||
  c.toNat = 0xa0 || c.toNat = 0x1680 ||
  (0x2000 ≤ c.toNat && c.toNat ≤ 0x200a) ||
  c.toNat = 0x2028 || c.toNat = 0x2029 || c.toNat = 0x202f ||
  c.toNat = 0x205f || c.toNat = 0x3000 || c.toNat = 0xfeff

/-- `s.replace(/\s/g, "")`: strip all whitespace. -/
def cleanWs (s : String) : String :=
  String.mk (s.toList.filter (fun c => !isJsSpace c))

/-- Character class `[A-Za-z0-9+/]` of the base64 alphabet. -/
def isB64Char (c : Char) : Bool :=
  c.isAlpha || c.isDigit || c = '+' || c = '/'

/-- Test of the regex `^[A-Za-z0-9+\/]*={0,2}$`: a run of base64 alphabet
characters followed by at most two padding `=` characters.  Since `=` is
not in the alphabet class, a string matches exactly when everything after
its longest alphabet prefix consists of at most two `=`. -/
def base64PatternTest (s : String) : Bool :=
  let rest := s.toList.dropWhile isB64Char
  rest.all (fun c => c = '=') && rest.length ≤ 2

/-- Hexadecimal digit of the case-insensitive class `[0-9a-f]` under the
`i` flag. -/
def isHexDigit (c : Char) : Bool :=
  c.isDigit || ('a' ≤ c && c ≤ 'f') || ('A' ≤ c && c ≤ 'F')

/-- Split a character list at every `-`, keeping empty segments. -/
def splitDashAux : List Char → List Char → List (List Char)
  | [], acc => [acc.reverse]
  | c :: cs, acc =>
    if c = '-' then acc.reverse :: splitDashAux cs []
    else splitDashAux cs (c :: acc)

/-- A dash-free group of exactly `n` hex digits. -/
def isHexGroup (g : List Char) (n : Nat) : Bool :=
  g.length = n && g.all isHexDigit

/-- Test of the regex
`^[0-9a-f]{8}-[0-9a-f]{4}-[0-9a-f]{4}-[0-9a-f]{4}-[0-9a-f]{12}$/i`:
five dash-separated case-insensitive hex groups of lengths 8-4-4-4-12. -/
def uuidPatternTest (s : String) : Bool :=
  match splitDashAux s.toList [] with
  | [a, b, c, d, e] =>
    isHexGroup a 8 && isHexGroup b 4 && isHexGroup c 4 && isHexGroup d 4 &&
    isHexGroup e 12
  | _ => false

/-- `SECURITY_CONFIG.REQUIRED_APP_TOKEN` is `process.env.APP_TOKEN`, a
string when the variable is set and `undefined` otherwise; the handler is
parameterised by it as `secret : Option String`.
The source function `validateAppToken(token)`: a falsy or non-string
token returns `false`; otherwise the token must match the UUID regex and
be strictly equal to the configured secret. -/
def validateAppToken (secret : Option String) (token : JSValue) : Bool :=
  match token with
  | .str s => if s = "" then false else uuidPatternTest s && (some s == secret)
  | _ => false

/-- `AI_CONFIG.MAX_IMAGE_SIZE = 20 * 1024 * 1024`. -/
def MAX_IMAGE_SIZE : Nat := 20 * 1024 * 1024

/-- `SECURITY_CONFIG.ALLOWED_IMAGE_TYPES`. -/
def ALLOWED_IMAGE_TYPES : List String :=
  ["image/jpeg", "image/jpg", "image/png", "image/webp"]

/-- The `debugInfo` record assembled inside the imageData validation
block of `validateRequestBody`. -/
structure DebugInfo where
  originalLength : Nat
  cleanedLength : Nat
  whitespaceRemoved : Nat
  firstChars : String
  lastChars : String
  hasInvalidChars : Bool
  deriving DecidableEq, Repr

/-- Keep the first occurrence of each character (the order-preserving
de-duplication performed by `[...new Set(...)]`). -/
def uniqueChars : List Char → List Char → List Char
  | [], _ => []
  | c :: cs, seen =>
    if c ∈ seen then uniqueChars cs seen else c :: uniqueChars cs (c :: seen)

/-- One validation error message, one constructor per `errors.push` site
of `validateRequestBody`, carrying every value the source interpolates
into the message text:
* `bodyNotObject`: "Request body must be a valid JSON object";
* `imageDataRequired`: "imageData field is required";
* `mimeTypeRequired`: "mimeType field is required";
* `invalidBase64Chars`: "imageData contains invalid base64 characters:
  ...", with the de-duplicated invalid characters and the debug record;
* `sizeExceeded`: "Image size exceeds maximum allowed size of ...MB
  (current: ...MB)", with the maximum and the computed current size, both
  in MB (the source renders the latter with `toFixed(2)`);
* `tooSmall`: "Image data appears to be too small or invalid (...
  bytes)", with the estimated size in bytes and the debug record;
* `emptyAfterCleaning`: "imageData is empty after cleaning";
* `notMultipleOf4`: "imageData length (...) is not valid base64 (must be
  multiple of 4)", with the cleaned length and the debug record;
* `unsupportedType`: "Unsupported image type: ...", with the offending
  mimeType value. -/
inductive VError where
  | bodyNotObject
  | imageDataRequired
  | mimeTypeRequired
  | invalidBase64Chars (invalidChars : List Char) (debugInfo : DebugInfo)
  | sizeExceeded (maxMB : ℚ) (currentMB : ℚ)
  | tooSmall (estimatedSize : ℚ) (debugInfo : DebugInfo)
  | emptyAfterCleaning
  | notMultipleOf4 (cleanedLength : Nat) (debugInfo : DebugInfo)
  | unsupportedType (mimeType : JSValue)

/-- The `debugInfo` value computed for the string `s` of `imageData`
(`substring(0, 20)` and `substring(length - 20)` clamp at the string
bounds, as the JavaScript originals do). -/
def mkDebugInfo (s : String) : DebugInfo :=
  let cleaned := cleanWs s
  { originalLength := s.length
    cleanedLength := cleaned.length
    whitespaceRemoved := s.length - cleaned.length
    firstChars := String.mk (cleaned.toList.take 20)
    lastChars := String.mk (cleaned.toList.drop (cleaned.length - 20))
    hasInvalidChars := !base64PatternTest cleaned }

/-- The block of checks `validateRequestBody` runs on a truthy string
`imageData`: alphabet test, estimated decoded size bounds (the estimate
is `cleanedLength * 3 / 4` in exact JavaScript float arithmetic),
emptiness, and length divisibility by 4.  Each failing check appends its
error; nothing short-circuits. -/
def imageDataErrors (s : String) : List VError :=
  let cleanedBase64 := cleanWs s
  let cleanedLength := cleanedBase64.length
  let debugInfo := mkDebugInfo s
  let estimatedSize : ℚ := (cleanedLength : ℚ) * 3 / 4
  (if base64PatternTest cleanedBase64 = false then
    [VError.invalidBase64Chars
      (uniqueChars (cleanedBase64.toList.filter
        (fun c => !(isB64Char c || c = '='))) [])
      debugInfo]
   else []) ++
  (if estimatedSize > (MAX_IMAGE_SIZE : ℚ) then
    [VError.sizeExceeded ((MAX_IMAGE_SIZE : ℚ) / (1024 * 1024))
      (estimatedSize / (1024 * 1024))]
   else []) ++
  (if estimatedSize < 100 then [VError.tooSmall estimatedSize debugInfo]
   else []) ++
  (if cleanedLength = 0 then [VError.emptyAfterCleaning] else []) ++
  (if cleanedLength % 4 ≠ 0 then
    [VError.notMultipleOf4 cleanedLength debugInfo]
   else [])

/-- The two required-field checks (`!body.imageData`, `!body.mimeType`)
recorded before the debug-mode test. -/
def requiredFieldErrors (body : JSValue) : List VError :=
  (if truthy (getField body "imageData") = false then
    [VError.imageDataRequired]
   else []) ++
  (if truthy (getField body "mimeType") = false then
    [VError.mimeTypeRequired]
   else [])

/-- The imageData checks run only when `body.imageData` is truthy and a
string (`body.imageData && typeof body.imageData === "string"`). -/
def imageDataFieldErrors (body : JSValue) : List VError :=
  match getField body "imageData" with
  | .str s => if s ≠ "" then imageDataErrors s else []
  | _ => []

/-- Membership of a `JSValue` in `ALLOWED_IMAGE_TYPES` under strict
equality (`Array.prototype.includes`); a non-string never matches. -/
def mimeTypeAllowed : JSValue → Bool
  | .str m => ALLOWED_IMAGE_TYPES.contains m
  | _ => false

/-- The mimeType check: `body.mimeType && !ALLOWED.includes(body.mimeType)`
pushes "Unsupported image type". -/
def mimeTypeFieldErrors (body : JSValue) : List VError :=
  if truthy (getField body "mimeType") = true ∧
     mimeTypeAllowed (getField body "mimeType") = false then
    [VError.unsupportedType (getField body "mimeType")]
  else []

/-- The record returned by `validateRequestBody`; the source returns a
`debug: true` marker field only on the bypass path. -/
structure ValidationResult where
  isValid : Bool
  errors : List VError
  debug : Bool

/-- `validateRequestBody(body)`: reject a falsy or non-object body
outright; record the two required-field errors; if `body.debugMode ===
true`, discard everything and report valid; otherwise run the imageData
and mimeType checks, accumulate all errors, and report valid exactly when
no error was recorded. -/
def validateRequestBody (body : JSValue) : ValidationResult :=
  if truthy body = false ∨ jsTypeof body ≠ "object" then
    { isValid := false, errors := [VError.bodyNotObject], debug := false }
  else if isTrueLiteral (getField body "debugMode") = true then
    { isValid := true, errors := [], debug := true }
  else
    let errors :=
      requiredFieldErrors body ++ imageDataFieldErrors body ++
      mimeTypeFieldErrors body
    { isValid := errors.isEmpty, errors := errors, debug := false }

/-- The normalized result `processWithOpenAI` returns on success. -/
structure ProviderResult where
  caption : String
  provider : String
  model : String
  confidence : String
  usage : JSValue

/-- One element of `data.choices` in the upstream response, with the
fields the endpoint reads: `message.content` (absent or null becomes
`none`) and `finish_reason`. -/
structure OpenAIChoice where
  content : Option String
  finish_reason : Option String

/-- The upstream success body as far as the endpoint reads it: the
`choices` list and the raw `usage` value. -/
structure OpenAIData where
  choices : List OpenAIChoice
  usage : JSValue

/-- The outcome of the single outbound `fetch` of a request, supplied by
the environment:
* `abort`: the 30-second timer fired and aborted the call (the fetch
  promise rejects with an `AbortError`);
* `fail`: the fetch rejected with any other error carrying `message`;
* `httpError`: a response with `response.ok` false, of the given status,
  where `errMessage` is the `error.message` of the parsed error body
  (`none` when the body did not parse or carried no such field);
* `success`: an ok response whose parsed body is `data`. -/
inductive FetchOutcome where
  | abort
  | fail (message : String)
  | httpError (status : Nat) (errMessage : Option String)
  | success (data : OpenAIData)

/-- JavaScript `String.prototype.trim`: strip whitespace from both
ends. -/
def jsTrim (s : String) : String :=
  String.mk (((s.toList.dropWhile isJsSpace).reverse.dropWhile
    isJsSpace).reverse)

/-- `processWithOpenAI(imageData, mimeType)`.  The function first cleans
`imageData` with `.replace(/\s/g, "")`; on a non-string value that
property access raises a `TypeError` before any network activity.  The
`try` block around the fetch re-throws every inner failure through its
`catch`: an `AbortError` becomes the dedicated timeout message, and any
other error message (including the non-ok-status and empty-caption
errors thrown inside the `try`) is prefixed with
"OpenAI processing failed: ".  On success the first completion text is
trimmed; a missing or empty caption is an error; `confidence` is "high"
exactly for a `finish_reason` of "stop"; a falsy `usage` becomes
`null`. -/
def processWithOpenAI (fetch : FetchOutcome) (imageData : JSValue)
    (mimeType : JSValue) : Except String ProviderResult :=
  match imageData with
  | .str _ =>
    match fetch with
    | .abort => .error "Request timeout: OpenAI API took too long to respond"
    | .fail message => .error ("OpenAI processing failed: " ++ message)
    | .httpError status errMessage =>
      .error ("OpenAI processing failed: " ++ "OpenAI API error: " ++
        toString status ++ " - " ++
        (match errMessage with
         | some m => if m = "" then "Unknown error" else m
         | none => "Unknown error"))
    | .success data =>
      match (data.choices.head?.bind (fun c => c.content)).map jsTrim with
      | none =>
        .error ("OpenAI processing failed: " ++ "No caption generated by OpenAI")
      | some caption =>
        if caption = "" then
          .error ("OpenAI processing failed: " ++ "No caption generated by OpenAI")
        else
          .ok { caption := caption
                provider := "OpenAI"
                model := "gpt-4o"
                confidence :=
                  if data.choices.head?.bind (fun c => c.finish_reason) =
                     some "stop" then "high" else "medium"
                usage := if truthy data.usage then data.usage else .null }
  | _ => .error "imageData.replace is not a function"

/-- `processWithAIProvider` looks up `AI_PROVIDERS[AI_CONFIG.CURRENT_PROVIDER]`;
the entry `openai` exists, so the call always reaches
`processWithOpenAI`. -/
def processWithAIProvider (fetch : FetchOutcome) (imageData : JSValue)
    (mimeType : JSValue) : Except String ProviderResult :=
  processWithOpenAI fetch imageData mimeType

/-- The `details` payload attached to an `APIError`: either a plain
string or the accumulated validation errors array. -/
inductive ErrDetails where
  | strDetail (s : String)
  | listDetail (errors : List VError)

/-- JavaScript truthiness of a `details` value (`createErrorResponse`
includes `details` only when truthy; an array is always truthy). -/
def detailsTruthy : ErrDetails → Bool
  | .strDetail s => decide (s ≠ "")
  | .listDetail _ => true

/-- The serialized error envelope: HTTP status, `error.code`,
`error.message` and the optional `error.details` (dropped when falsy, as
in `createErrorResponse`).  The ISO timestamp stamped on every error is
wall-clock data and is not modelled. -/
structure ErrorResponse where
  status : Nat
  code : String
  message : String
  details : Option ErrDetails

/-- Build the serialized response of an `APIError` of the given status,
code, message and details, applying the truthiness filter of
`createErrorResponse`. -/
def mkErrorResponse (status : Nat) (code : String) (message : String)
    (details : Option ErrDetails) : ErrorResponse :=
  { status := status
    code := code
    message := message
    details :=
      match details with
      | some d => if detailsTruthy d then some d else none
      | none => none }

/-- The `data` part of the success envelope. -/
structure SuccessData where
  caption : String
  provider : String
  model : String
  confidence : String
  usage : JSValue
  processingTime : String
  requestId : String

/-- The `metadata` part of the success envelope (`timestamp` is
wall-clock data and is not modelled). -/
structure SuccessMeta where
  provider : String
  requestId : String
  processingTime : Nat
  imageSize : JSValue
  mimeType : JSValue

/-- The success envelope `{success: true, data, metadata}`. -/
structure SuccessResponse where
  data : SuccessData
  metadata : SuccessMeta

/-- JavaScript property access `v.length`. -/
def jsLength : JSValue → JSValue
  | .str s => .num s.length
  | .obj fields => getField (.obj fields) "length"
  | _ => .undefined

/-- What the handler sends back: the empty 200 of the OPTIONS
short-circuit, an error envelope, or a success envelope with its
status. -/
inductive HandlerResult where
  | corsOk
  | errorResponse (e : ErrorResponse)
  | success (status : Nat) (r : SuccessResponse)

/-- The inbound request: HTTP method, the two token-bearing headers, and
the parsed JSON body. -/
structure Request where
  method : String
  xAppToken : Option String
  authorization : Option String
  body : JSValue

/-- Does the second list start with the first one? -/
def startsWithList : List Char → List Char → Bool
  | [], _ => true
  | _ :: _, [] => false
  | p :: ps, c :: cs => p = c && startsWithList ps cs

/-- Replace the first occurrence of `pattern` in a character list by
nothing (the effect of `.replace("Bearer ", "")`, which replaces only
the first match and anywhere in the string). -/
def dropFirstMatch (pattern : List Char) : List Char → List Char
  | [] => []
  | c :: cs =>
    if startsWithList pattern (c :: cs) then (c :: cs).drop pattern.length
    else c :: dropFirstMatch pattern cs

/-- The token the handler extracts:
`req.headers["x-app-token"] || req.headers["authorization"]?.replace("Bearer ", "")`.
A present but empty `x-app-token` is falsy and falls through to the
authorization header. -/
def appTokenOf (req : Request) : JSValue :=
  match req.xAppToken with
  | some s => if s ≠ "" then .str s else appTokenOfAuth req
  | none => appTokenOfAuth req
where
  appTokenOfAuth (req : Request) : JSValue :=
    match req.authorization with
    | some a => .str (String.mk (dropFirstMatch "Bearer ".toList a.toList))
    | none => .undefined

/-- Shape the outcome of the provider call the way the handler does: a
rejection is wrapped into an `AI_001` error of status 500 whose message
is the generic `ERROR_TYPES.AI_PROVIDER_ERROR.message` and whose
`details` is the thrown message; a result is spread into the success
envelope together with the request id, the processing time, the raw
`imageData.length` and the `mimeType`. -/
def shapeProviderOutcome (outcome : Except String ProviderResult)
    (body : JSValue) (requestId : String) (processingTime : Nat) :
    HandlerResult :=
  match outcome with
  | .error msg =>
    .errorResponse (mkErrorResponse 500 "AI_001" "AI provider error"
      (some (.strDetail msg)))
  | .ok r =>
    .success 200
      { data :=
          { caption := r.caption
            provider := r.provider
            model := r.model
            confidence := r.confidence
            usage := r.usage
            processingTime := toString processingTime ++ "ms"
            requestId := requestId }
        metadata :=
          { provider := "openai"
            requestId := requestId
            processingTime := processingTime
            imageSize := jsLength (getField body "imageData")
            mimeType := getField body "mimeType" } }

/-- The provider stage of the handler, reached after validation: call
`processWithAIProvider(req.body.imageData, req.body.mimeType)` and shape
its outcome. -/
def dispatchAfterValidation (fetch : FetchOutcome) (body : JSValue)
    (requestId : String) (processingTime : Nat) : HandlerResult :=
  shapeProviderOutcome
    (processWithAIProvider fetch (getField body "imageData")
      (getField body "mimeType"))
    body requestId processingTime

/-- The top-level `handler(req, res)`.  `secret` is the configured
`APP_TOKEN`, `fetch` the outcome the network produces for the single
outbound call, `requestId` and `processingTime` the `Date.now`-derived
values.  OPTIONS short-circuits to an empty 200; a non-POST method is a
405 `METHOD_001`; a token failing `validateAppToken` is a 401 `AUTH_001`
(before the body is ever looked at); an invalid body is a 400 `VAL_001`
carrying all accumulated validation errors as `details`; otherwise the
provider outcome is shaped into the response. -/
def handler (secret : Option String) (fetch : FetchOutcome)
    (requestId : String) (processingTime : Nat) (req : Request) :
    HandlerResult :=
  if req.method = "OPTIONS" then .corsOk
  else if req.method ≠ "POST" then
    .errorResponse (mkErrorResponse 405 "METHOD_001" "Method not allowed"
      (some (.strDetail ("Method " ++ req.method ++ " not allowed"))))
  else if validateAppToken secret (appTokenOf req) = false then
    .errorResponse (mkErrorResponse 401 "AUTH_001" "Authentication failed"
      (some (.strDetail "Invalid or missing app token")))
  else
    let validation := validateRequestBody req.body
    if validation.isValid = false then
      .errorResponse (mkErrorResponse 400 "VAL_001" "Request validation failed"
        (some (.listDetail validation.errors)))
    else
      dispatchAfterValidation fetch req.body requestId processingTime

/-- Does `sub` occur as a contiguous run somewhere in the list? -/
def hasSubList (sub : List Char) : List Char → Bool
  | [] => sub.isEmpty
  | c :: cs => startsWithList sub (c :: cs) || hasSubList sub cs

/-- Containment of `sub` as a contiguous substring of `s` (used to state
what a message does or does not mention). -/
def strMentions (s sub : String) : Bool :=
  hasSubList sub.toList s.toList

/-- Does a validation error cite the too-small message? -/
def citesTooSmall : VError → Bool
  | .tooSmall _ _ => true
  | _ => false

/-- Does any error of a list cite the too-small message? -/
def anyCitesTooSmall (errors : List VError) : Bool :=
  errors.any citesTooSmall

/-- A POST request with the given token headers and body. -/
def mkPost (xt auth : Option String) (body : JSValue) : Request :=
  { method := "POST", xAppToken := xt, authorization := auth, body := body }

/-- A sample configured secret, of the canonical UUID shape. -/
def sampleToken : String := "12345678-1234-1234-1234-123456789abc"

/-- A sample syntactically valid base64 payload: 136 characters, hence a
cleaned length that is a positive multiple of 4 whose estimated decoded
size (102 bytes) lies inside both size bounds. -/
def sampleImageData : String := String.mk (List.replicate 136 'A')

/-- A sample well-formed request body. -/
def sampleBody : JSValue :=
  .obj [("imageData", .str sampleImageData), ("mimeType", .str "image/png")]

/-- A sample authenticated POST request carrying `sampleBody`. -/
def sampleRequest : Request :=
  { method := "POST", xAppToken := some sampleToken, authorization := none,
    body := sampleBody }

/-- The body of the debug-bypass scenario: `debugMode: true`,
`imageData: ""`, and no `mimeType`. -/
def debugBypassBody : JSValue :=
  .obj [("imageData", JSValue.str ""), ("debugMode", JSValue.bool true)]

/-- A body whose `imageData` is the empty string and whose other field is
valid. -/
def emptyImageBody : JSValue :=
  .obj [("imageData", JSValue.str ""), ("mimeType", JSValue.str "image/png")]

/-- A body whose `imageData` is a tiny valid base64 string (estimated
decoded size 3 bytes). -/
def tinyImageBody : JSValue :=
  .obj [("imageData", JSValue.str "AAAA"), ("mimeType", JSValue.str "image/png")]

lemma isEmpty_false_of_mem {α : Type} {x : α} {l : List α} (h : x ∈ l) :
    l.isEmpty = false := by
  cases l with
  | nil => cases h
  | cons a as => rfl

lemma validateAppToken_iff (secret : Option String) (token : JSValue) :
    validateAppToken secret token = true ↔
      ∃ s, token = JSValue.str s ∧ uuidPatternTest s = true ∧
        secret = some s := by
  cases token with
  | str s =>
    constructor
    · intro h
      simp only [validateAppToken] at h
      by_cases hs : s = ""
      · rw [if_pos hs] at h
        exact absurd h (by simp)
      · rw [if_neg hs, Bool.and_eq_true] at h
        rcases h with ⟨hp, he⟩
        exact ⟨s, rfl, hp, (beq_iff_eq.mp he).symm⟩
    · rintro ⟨s', hs', hp, he⟩
      injection hs' with h
      subst h
      have hne : s ≠ "" := by
        intro h0
        subst h0
        exact absurd hp (by decide)
      simp only [validateAppToken]
      rw [if_neg hne, Bool.and_eq_true]
      exact ⟨hp, beq_iff_eq.mpr he.symm⟩
  | null => simp [validateAppToken]
  | undefined => simp [validateAppToken]
  | bool b => simp [validateAppToken]
  | num n => simp [validateAppToken]
  | obj fields => simp [validateAppToken]

lemma est_gt_max_iff (n : Nat) :
    ((n : ℚ) * 3 / 4 > (MAX_IMAGE_SIZE : ℚ)) ↔ MAX_IMAGE_SIZE * 4 < n * 3 := by
  rw [gt_iff_lt, lt_div_iff₀ (by norm_num : (0:ℚ) < 4)]
  constructor
  · intro h; exact_mod_cast h
  · intro h; exact_mod_cast h

lemma est_lt_min_iff (n : Nat) :
    ((n : ℚ) * 3 / 4 < 100) ↔ n * 3 < 100 * 4 := by
  rw [div_lt_iff₀ (by norm_num : (0:ℚ) < 4)]
  constructor
  · intro h; exact_mod_cast h
  · intro h; exact_mod_cast h

lemma imageDataErrors_nil (s : String)
    (h1 : base64PatternTest (cleanWs s) = true)
    (h2 : (cleanWs s).length * 3 ≤ MAX_IMAGE_SIZE * 4)
    (h3 : 100 * 4 ≤ (cleanWs s).length * 3)
    (h4 : (cleanWs s).length % 4 = 0) :
    imageDataErrors s = [] := by
  have hB : ¬(((cleanWs s).length : ℚ) * 3 / 4 > (MAX_IMAGE_SIZE : ℚ)) := by
    rw [est_gt_max_iff]; omega
  have hC : ¬(((cleanWs s).length : ℚ) * 3 / 4 < 100) := by
    rw [est_lt_min_iff]; omega
  have hD : ¬((cleanWs s).length = 0) := by omega
  have hE : ¬((cleanWs s).length % 4 ≠ 0) := by omega
  simp only [imageDataErrors]
  rw [if_neg (by simp [h1]), if_neg hB, if_neg hC, if_neg hD, if_neg hE]
  rfl

lemma validateRequestBody_checks (body : JSValue)
    (h1 : truthy body = true) (h2 : jsTypeof body = "object")
    (h3 : isTrueLiteral (getField body "debugMode") = false) :
    validateRequestBody body =
      { isValid := (requiredFieldErrors body ++ imageDataFieldErrors body ++
          mimeTypeFieldErrors body).isEmpty,
        errors := requiredFieldErrors body ++ imageDataFieldErrors body ++
          mimeTypeFieldErrors body,
        debug := false } := by
  unfold validateRequestBody
  rw [if_neg (by simp [h1, h2]), if_neg (by simp [h3])]

lemma validateRequestBody_bypass (body : JSValue)
    (h1 : truthy body = true) (h2 : jsTypeof body = "object")
    (h3 : isTrueLiteral (getField body "debugMode") = true) :
    validateRequestBody body =
      { isValid := true, errors := [], debug := true } := by
  unfold validateRequestBody
  rw [if_neg (by simp [h1, h2]), if_pos h3]

lemma allowed_ne_empty {m : String}
    (hmem : ALLOWED_IMAGE_TYPES.contains m = true) : m ≠ "" := by
  intro h
  subst h
  exact absurd hmem (by decide)

lemma validateRequestBody_valid (body : JSValue) (s m : String)
    (h1 : truthy body = true) (h2 : jsTypeof body = "object")
    (h3 : isTrueLiteral (getField body "debugMode") = false)
    (himg : getField body "imageData" = JSValue.str s) (hs : s ≠ "")
    (hie : imageDataErrors s = [])
    (hm : getField body "mimeType" = JSValue.str m)
    (hmem : ALLOWED_IMAGE_TYPES.contains m = true) :
    validateRequestBody body =
      { isValid := true, errors := [], debug := false } := by
  have hmne : m ≠ "" := allowed_ne_empty hmem
  have hreq : requiredFieldErrors body = [] := by
    unfold requiredFieldErrors
    rw [himg, hm]
    simp [truthy, hs, hmne]
  have himgE : imageDataFieldErrors body = [] := by
    unfold imageDataFieldErrors
    rw [himg]
    simp [hs, hie]
  have hmimeE : mimeTypeFieldErrors body = [] := by
    have hall : mimeTypeAllowed (JSValue.str m) = true := by
      simpa [mimeTypeAllowed] using hmem
    unfold mimeTypeFieldErrors
    rw [hm]
    simp [hall]
  rw [validateRequestBody_checks body h1 h2 h3, hreq, himgE, hmimeE]
  rfl

set_option maxRecDepth 100000 in
lemma sampleBody_valid :
    validateRequestBody sampleBody =
      { isValid := true, errors := [], debug := false } :=
  validateRequestBody_valid sampleBody sampleImageData "image/png"
    rfl rfl rfl rfl (by decide)
    (imageDataErrors_nil sampleImageData (by decide) (by decide) (by decide)
      (by decide))
    rfl (by decide)

lemma handler_auth_fail (secret : Option String) (fetch : FetchOutcome)
    (requestId : String) (processingTime : Nat) (req : Request)
    (hm : req.method = "POST")
    (hv : validateAppToken secret (appTokenOf req) = false) :
    handler secret fetch requestId processingTime req =
      HandlerResult.errorResponse
        { status := 401, code := "AUTH_001", message := "Authentication failed",
          details := some (ErrDetails.strDetail "Invalid or missing app token") } := by
  unfold handler
  rw [hm]
  rw [if_neg (by decide), if_neg (by simp), if_pos hv]
  rfl

lemma handler_validation_fail (secret : Option String) (fetch : FetchOutcome)
    (requestId : String) (processingTime : Nat) (req : Request)
    (hm : req.method = "POST")
    (hauth : validateAppToken secret (appTokenOf req) = true)
    (hval : (validateRequestBody req.body).isValid = false) :
    handler secret fetch requestId processingTime req =
      HandlerResult.errorResponse
        { status := 400, code := "VAL_001", message := "Request validation failed",
          details := some (ErrDetails.listDetail (validateRequestBody req.body).errors) } := by
  unfold handler
  rw [hm]
  rw [if_neg (by decide), if_neg (by simp), if_neg (by simp [hauth]), if_pos hval]
  rfl

lemma handler_success_path (secret : Option String) (fetch : FetchOutcome)
    (requestId : String) (processingTime : Nat) (req : Request)
    (hm : req.method = "POST")
    (hauth : validateAppToken secret (appTokenOf req) = true)
    (hval : (validateRequestBody req.body).isValid = true) :
    handler secret fetch requestId processingTime req =
      dispatchAfterValidation fetch req.body requestId processingTime := by
  unfold handler
  rw [hm]
  rw [if_neg (by decide), if_neg (by simp), if_neg (by simp [hauth]),
    if_neg (by simp [hval])]

lemma processWithOpenAI_success (s : String) (mt : JSValue)
    (content : String) (fr : Option String) (usage : JSValue)
    (hcap : jsTrim content ≠ "") :
    processWithOpenAI
        (FetchOutcome.success
          { choices := [{ content := some content, finish_reason := fr }],
            usage := usage })
        (JSValue.str s) mt =
      Except.ok
        { caption := jsTrim content, provider := "OpenAI", model := "gpt-4o",
          confidence := if fr = some "stop" then "high" else "medium",
          usage := if truthy usage then usage else JSValue.null } := by
  show (if jsTrim content = "" then
      (Except.error ("OpenAI processing failed: " ++
        "No caption generated by OpenAI") : Except String ProviderResult)
    else Except.ok
      { caption := jsTrim content, provider := "OpenAI", model := "gpt-4o",
        confidence := if fr = some "stop" then "high" else "medium",
        usage := if truthy usage then usage else JSValue.null }) =
    Except.ok
      { caption := jsTrim content, provider := "OpenAI", model := "gpt-4o",
        confidence := if fr = some "stop" then "high" else "medium",
        usage := if truthy usage then usage else JSValue.null }
  rw [if_neg hcap]

/-- Claim C3: `validateAppToken` returns true exactly when the candidate
token is a string matching the canonical dash-separated case-insensitive
hex UUID shape and equal to the pre-configured secret; every absent
(undefined or null), non-string, or malformed token yields false.  The
function is total, so it never throws. -/
theorem validateAppToken_spec (secret : Option String) (token : JSValue) :
    (validateAppToken secret token = true ↔
      ∃ s, token = JSValue.str s ∧ uuidPatternTest s = true ∧
        secret = some s) ∧
    validateAppToken secret JSValue.undefined = false ∧
    validateAppToken secret JSValue.null = false ∧
    (∀ b, validateAppToken secret (JSValue.bool b) = false) ∧
    (∀ n, validateAppToken secret (JSValue.num n) = false) ∧
    (∀ fields, validateAppToken secret (JSValue.obj fields) = false) :=
  ⟨validateAppToken_iff secret token, rfl, rfl, fun _ => rfl, fun _ => rfl,
    fun _ => rfl⟩

/-- Witness for C3: the configured secret itself authenticates, an
absent token does not, and a malformed string does not. -/
theorem validateAppToken_spec_witness :
    validateAppToken (some sampleToken) (JSValue.str sampleToken) = true ∧
    validateAppToken (some sampleToken) JSValue.undefined = false ∧
    validateAppToken (some sampleToken) (JSValue.str "not-a-uuid") = false := by
  refine ⟨(validateAppToken_spec (some sampleToken)
      (JSValue.str sampleToken)).1.mpr ⟨sampleToken, rfl, by decide, rfl⟩,
    (validateAppToken_spec (some sampleToken) JSValue.undefined).2.1, ?_⟩
  cases hb : validateAppToken (some sampleToken) (JSValue.str "not-a-uuid") with
  | false => rfl
  | true =>
    rcases (validateAppToken_spec (some sampleToken)
        (JSValue.str "not-a-uuid")).1.mp hb with ⟨s, hs, hp, _⟩
    injection hs with h2
    subst h2
    exact absurd hp (by decide)

/-- Claim C4: whenever the extracted token is not a string that both
matches the UUID shape and equals the configured secret, the POST
response is the 401 `AUTH_001` error envelope, identical in status and
code (indeed identical in full) for any two request bodies, fetch
outcomes, request ids and timings. -/
theorem auth_failure_uniform (secret : Option String)
    (fetch1 fetch2 : FetchOutcome) (rqid1 rqid2 : String) (pt1 pt2 : Nat)
    (xt auth : Option String) (b1 b2 : JSValue)
    (h : ∀ s : String,
      appTokenOf (mkPost xt auth b1) = JSValue.str s →
      ¬(uuidPatternTest s = true ∧ secret = some s)) :
    handler secret fetch1 rqid1 pt1 (mkPost xt auth b1) =
      HandlerResult.errorResponse
        { status := 401, code := "AUTH_001", message := "Authentication failed",
          details := some (ErrDetails.strDetail "Invalid or missing app token") } ∧
    handler secret fetch2 rqid2 pt2 (mkPost xt auth b2) =
      HandlerResult.errorResponse
        { status := 401, code := "AUTH_001", message := "Authentication failed",
          details := some (ErrDetails.strDetail "Invalid or missing app token") } := by
  have htok : appTokenOf (mkPost xt auth b2) = appTokenOf (mkPost xt auth b1) :=
    rfl
  have hv : validateAppToken secret (appTokenOf (mkPost xt auth b1)) = false := by
    cases hb : validateAppToken secret (appTokenOf (mkPost xt auth b1)) with
    | false => rfl
    | true =>
      rcases (validateAppToken_iff secret _).mp hb with ⟨s, hs, hp, he⟩
      exact absurd ⟨hp, he⟩ (h s hs)
  exact ⟨handler_auth_fail secret fetch1 rqid1 pt1 _ rfl hv,
    handler_auth_fail secret fetch2 rqid2 pt2 _ rfl (by rw [htok]; exact hv)⟩

/-- Witness for C4: with no configured secret and a malformed header
token, two requests with different bodies both draw the same 401
`AUTH_001` envelope. -/
theorem auth_failure_uniform_witness :
    handler none FetchOutcome.abort "req_a" 1
        (mkPost (some "not-a-uuid") none (JSValue.obj [])) =
      HandlerResult.errorResponse
        { status := 401, code := "AUTH_001", message := "Authentication failed",
          details := some (ErrDetails.strDetail "Invalid or missing app token") } ∧
    handler none (FetchOutcome.fail "boom") "req_b" 2
        (mkPost (some "not-a-uuid") none JSValue.null) =
      HandlerResult.errorResponse
        { status := 401, code := "AUTH_001", message := "Authentication failed",
          details := some (ErrDetails.strDetail "Invalid or missing app token") } :=
  auth_failure_uniform none FetchOutcome.abort (FetchOutcome.fail "boom")
    "req_a" "req_b" 1 2 (some "not-a-uuid") none (JSValue.obj []) JSValue.null
    (fun _ _ hc => Option.noConfusion hc.2)

set_option maxRecDepth 100000 in
/-- Claim C1 counterexample: a fully valid POST request whose provider
call times out is answered with status 500, but `error.message` is the
generic "AI provider error" string, which does not mention timeout (the
timeout text is carried in `error.details` instead). -/
theorem timeout_message_counterexample :
    validateAppToken (some sampleToken) (appTokenOf sampleRequest) = true ∧
    (validateRequestBody sampleBody).isValid = true ∧
    handler (some sampleToken) FetchOutcome.abort "req_1" 7 sampleRequest =
      HandlerResult.errorResponse
        { status := 500, code := "AI_001", message := "AI provider error",
          details := some (ErrDetails.strDetail
            "Request timeout: OpenAI API took too long to respond") } ∧
    strMentions "AI provider error" "timeout" = false ∧
    strMentions "AI provider error" "Timeout" = false := by
  have hauth : validateAppToken (some sampleToken)
      (appTokenOf sampleRequest) = true := by decide
  have hval : (validateRequestBody sampleBody).isValid = true := by
    rw [sampleBody_valid]
  refine ⟨hauth, hval, ?_, by decide, by decide⟩
  rw [handler_success_path (some sampleToken) FetchOutcome.abort "req_1" 7
    sampleRequest rfl hauth hval]
  rfl

/-- Claim C1 (amended): for every POST request with a valid token and
valid body whose `imageData` is a string, a provider call aborted by the
30-second timer is answered with status 500, `error.code` `AI_001`,
`error.message` equal to the generic "AI provider error", and
`error.details` equal to the dedicated timeout message, which does
mention timeout. -/
theorem timeout_detail_amended (secret : Option String) (rqid : String)
    (pt : Nat) (req : Request) (s : String)
    (hm : req.method = "POST")
    (hauth : validateAppToken secret (appTokenOf req) = true)
    (himg : getField req.body "imageData" = JSValue.str s)
    (hval : (validateRequestBody req.body).isValid = true) :
    handler secret FetchOutcome.abort rqid pt req =
      HandlerResult.errorResponse
        { status := 500, code := "AI_001", message := "AI provider error",
          details := some (ErrDetails.strDetail
            "Request timeout: OpenAI API took too long to respond") } ∧
    strMentions "Request timeout: OpenAI API took too long to respond"
      "timeout" = true := by
  refine ⟨?_, by decide⟩
  rw [handler_success_path secret FetchOutcome.abort rqid pt req hm hauth hval]
  unfold dispatchAfterValidation processWithAIProvider
  rw [himg]
  rfl

set_option maxRecDepth 100000 in
/-- Witness for C1 (amended): the concrete valid request times out into
the 500 envelope with the generic message and the timeout detail. -/
theorem timeout_detail_amended_witness :
    handler (some sampleToken) FetchOutcome.abort "req_2" 3 sampleRequest =
      HandlerResult.errorResponse
        { status := 500, code := "AI_001", message := "AI provider error",
          details := some (ErrDetails.strDetail
            "Request timeout: OpenAI API took too long to respond") } ∧
    strMentions "Request timeout: OpenAI API took too long to respond"
      "timeout" = true :=
  timeout_detail_amended (some sampleToken) "req_2" 3 sampleRequest
    sampleImageData rfl (by decide) rfl
    (by show (validateRequestBody sampleBody).isValid = true
        rw [sampleBody_valid])

/-- Claim C2: a body carrying `debugMode === true` makes the validator
skip all remaining checks and report valid; in particular the concrete
body with `debugMode: true`, `imageData: ""` and no `mimeType` passes
validation, and the handler goes on to invoke the provider call with
that empty string and undefined mimeType. -/
theorem debug_bypass_reaches_provider (secret : Option String)
    (fetch : FetchOutcome) (rqid : String) (pt : Nat)
    (xt auth : Option String)
    (hauth : validateAppToken secret
      (appTokenOf (mkPost xt auth debugBypassBody)) = true) :
    (∀ body : JSValue, truthy body = true → jsTypeof body = "object" →
      isTrueLiteral (getField body "debugMode") = true →
      validateRequestBody body =
        { isValid := true, errors := [], debug := true }) ∧
    validateRequestBody debugBypassBody =
      { isValid := true, errors := [], debug := true } ∧
    getField debugBypassBody "imageData" = JSValue.str "" ∧
    getField debugBypassBody "mimeType" = JSValue.undefined ∧
    handler secret fetch rqid pt (mkPost xt auth debugBypassBody) =
      shapeProviderOutcome
        (processWithAIProvider fetch (JSValue.str "") JSValue.undefined)
        debugBypassBody rqid pt := by
  refine ⟨fun body h1 h2 h3 => validateRequestBody_bypass body h1 h2 h3,
    validateRequestBody_bypass debugBypassBody rfl rfl rfl, rfl, rfl, ?_⟩
  rw [handler_success_path secret fetch rqid pt _ rfl hauth
    (by show (validateRequestBody debugBypassBody).isValid = true
        rw [validateRequestBody_bypass debugBypassBody rfl rfl rfl])]
  rfl

/-- Witness for C2: with the configured secret presented, the bypass
body reaches the provider stage. -/
theorem debug_bypass_reaches_provider_witness :
    (∀ body : JSValue, truthy body = true → jsTypeof body = "object" →
      isTrueLiteral (getField body "debugMode") = true →
      validateRequestBody body =
        { isValid := true, errors := [], debug := true }) ∧
    validateRequestBody debugBypassBody =
      { isValid := true, errors := [], debug := true } ∧
    getField debugBypassBody "imageData" = JSValue.str "" ∧
    getField debugBypassBody "mimeType" = JSValue.undefined ∧
    handler (some sampleToken) FetchOutcome.abort "req_3" 4
        (mkPost (some sampleToken) none debugBypassBody) =
      shapeProviderOutcome
        (processWithAIProvider FetchOutcome.abort (JSValue.str "")
          JSValue.undefined)
        debugBypassBody "req_3" 4 :=
  debug_bypass_reaches_provider (some sampleToken) FetchOutcome.abort
    "req_3" 4 (some sampleToken) none (by decide)

/-- Claim C5: a POST with a valid token and an object body that lacks
`imageData` or `mimeType` (and does not carry `debugMode === true`) is
answered with status 400, code `VAL_001`, and all accumulated validation
errors attached as `details`; each missing field contributes its
required-field message to those details. -/
theorem missing_fields_400 (secret : Option String) (fetch : FetchOutcome)
    (rqid : String) (pt : Nat) (xt auth : Option String) (body : JSValue)
    (h1 : truthy body = true) (h2 : jsTypeof body = "object")
    (h3 : isTrueLiteral (getField body "debugMode") = false)
    (h4 : getField body "imageData" = JSValue.undefined ∨
      getField body "mimeType" = JSValue.undefined)
    (hauth : validateAppToken secret (appTokenOf (mkPost xt auth body)) = true) :
    handler secret fetch rqid pt (mkPost xt auth body) =
      HandlerResult.errorResponse
        { status := 400, code := "VAL_001", message := "Request validation failed",
          details := some (ErrDetails.listDetail
            (validateRequestBody body).errors) } ∧
    (getField body "imageData" = JSValue.undefined →
      VError.imageDataRequired ∈ (validateRequestBody body).errors) ∧
    (getField body "mimeType" = JSValue.undefined →
      VError.mimeTypeRequired ∈ (validateRequestBody body).errors) := by
  have hrb := validateRequestBody_checks body h1 h2 h3
  have hmem1 : getField body "imageData" = JSValue.undefined →
      VError.imageDataRequired ∈ (validateRequestBody body).errors := by
    intro h
    have ht : truthy (getField body "imageData") = false := by rw [h]; rfl
    rw [hrb]
    simp [requiredFieldErrors, ht]
  have hmem2 : getField body "mimeType" = JSValue.undefined →
      VError.mimeTypeRequired ∈ (validateRequestBody body).errors := by
    intro h
    have ht : truthy (getField body "mimeType") = false := by rw [h]; rfl
    rw [hrb]
    simp [requiredFieldErrors, ht]
  have hval : (validateRequestBody body).isValid = false := by
    rcases h4 with h | h
    · have hm := hmem1 h
      rw [hrb] at hm ⊢
      exact isEmpty_false_of_mem hm
    · have hm := hmem2 h
      rw [hrb] at hm ⊢
      exact isEmpty_false_of_mem hm
  exact ⟨handler_validation_fail secret fetch rqid pt _ rfl hauth hval,
    hmem1, hmem2⟩

/-- Witness for C5: a valid-token POST whose body has a `mimeType` but no
`imageData` draws the 400 envelope with the required-field detail. -/
theorem missing_fields_400_witness :
    handler (some sampleToken) FetchOutcome.abort "req_5" 2
        (mkPost (some sampleToken) none
          (JSValue.obj [("mimeType", JSValue.str "image/png")])) =
      HandlerResult.errorResponse
        { status := 400, code := "VAL_001", message := "Request validation failed",
          details := some (ErrDetails.listDetail
            (validateRequestBody
              (JSValue.obj [("mimeType", JSValue.str "image/png")])).errors) } ∧
    VError.imageDataRequired ∈
      (validateRequestBody
        (JSValue.obj [("mimeType", JSValue.str "image/png")])).errors := by
  have h := missing_fields_400 (some sampleToken) FetchOutcome.abort "req_5" 2
    (some sampleToken) none (JSValue.obj [("mimeType", JSValue.str "image/png")])
    rfl rfl rfl (Or.inl rfl) (by decide)
  exact ⟨h.1, h.2.1 rfl⟩

/-- Claim C6: an object body (not carrying `debugMode === true`) whose
`imageData` is a string with whitespace-cleaned length not a multiple of
4 fails validation, and the errors contain the not-valid-base64
(multiple-of-4) message for that cleaned length. -/
theorem base64_length_mod4 (body : JSValue) (s : String)
    (h1 : truthy body = true) (h2 : jsTypeof body = "object")
    (h3 : isTrueLiteral (getField body "debugMode") = false)
    (himg : getField body "imageData" = JSValue.str s)
    (h4 : (cleanWs s).length % 4 ≠ 0) :
    (validateRequestBody body).isValid = false ∧
    VError.notMultipleOf4 (cleanWs s).length (mkDebugInfo s) ∈
      (validateRequestBody body).errors := by
  have hs : s ≠ "" := by
    intro h0
    subst h0
    exact h4 (by decide)
  have hin : VError.notMultipleOf4 (cleanWs s).length (mkDebugInfo s) ∈
      imageDataErrors s := by
    simp only [imageDataErrors]
    refine List.mem_append.mpr (Or.inr ?_)
    rw [if_pos h4]
    exact List.mem_singleton.mpr rfl
  have hie : imageDataFieldErrors body = imageDataErrors s := by
    unfold imageDataFieldErrors
    rw [himg]
    show (if s ≠ "" then imageDataErrors s else []) = imageDataErrors s
    rw [if_pos hs]
  have hrb := validateRequestBody_checks body h1 h2 h3
  have hmem : VError.notMultipleOf4 (cleanWs s).length (mkDebugInfo s) ∈
      (validateRequestBody body).errors := by
    rw [hrb]
    show VError.notMultipleOf4 (cleanWs s).length (mkDebugInfo s) ∈
      requiredFieldErrors body ++ imageDataFieldErrors body ++
        mimeTypeFieldErrors body
    refine List.mem_append.mpr (Or.inl (List.mem_append.mpr (Or.inr ?_)))
    rw [hie]
    exact hin
  refine ⟨?_, hmem⟩
  rw [hrb] at hmem ⊢
  exact isEmpty_false_of_mem hmem

/-- Witness for C6: a 3-character base64 string draws the
multiple-of-4 error. -/
theorem base64_length_mod4_witness :
    (validateRequestBody
      (JSValue.obj [("imageData", JSValue.str "AAA"),
        ("mimeType", JSValue.str "image/png")])).isValid = false ∧
    VError.notMultipleOf4 (cleanWs "AAA").length (mkDebugInfo "AAA") ∈
      (validateRequestBody
        (JSValue.obj [("imageData", JSValue.str "AAA"),
          ("mimeType", JSValue.str "image/png")])).errors :=
  base64_length_mod4
    (JSValue.obj [("imageData", JSValue.str "AAA"),
      ("mimeType", JSValue.str "image/png")])
    "AAA" rfl rfl rfl rfl (by decide)

/-- Claim C7 counterexample: the body whose `imageData` is the empty
string (an otherwise valid body) has an estimated decoded size of 0,
which is under 100 bytes, yet validation fails only with the
required-field message and nothing citing "too small or invalid": the
imageData checks run only on truthy strings, so the empty string skips
them. -/
theorem size_check_counterexample :
    validateRequestBody emptyImageBody =
      { isValid := false, errors := [VError.imageDataRequired],
        debug := false } ∧
    ((cleanWs "").length : ℚ) * 3 / 4 < 100 ∧
    anyCitesTooSmall (validateRequestBody emptyImageBody).errors = false := by
  have h : validateRequestBody emptyImageBody =
      { isValid := false, errors := [VError.imageDataRequired],
        debug := false } := rfl
  exact ⟨h, (est_lt_min_iff (cleanWs "").length).mpr (by decide),
    by rw [h]; rfl⟩

/-- Claim C7 (amended): for every object body (not carrying
`debugMode === true`) whose `imageData` is a non-empty string, the
validator computes the estimated decoded size `cleanedLength * 3 / 4`;
if it exceeds 20 MiB, validation fails with the size-exceeded error
carrying the computed MB value, and if it is under 100 bytes, validation
fails with the too-small error carrying the estimated size. -/
theorem size_bounds_amended (body : JSValue) (s : String)
    (h1 : truthy body = true) (h2 : jsTypeof body = "object")
    (h3 : isTrueLiteral (getField body "debugMode") = false)
    (himg : getField body "imageData" = JSValue.str s) (hs : s ≠ "") :
    (((cleanWs s).length : ℚ) * 3 / 4 > (MAX_IMAGE_SIZE : ℚ) →
      (validateRequestBody body).isValid = false ∧
      VError.sizeExceeded ((MAX_IMAGE_SIZE : ℚ) / (1024 * 1024))
          (((cleanWs s).length : ℚ) * 3 / 4 / (1024 * 1024)) ∈
        (validateRequestBody body).errors) ∧
    (((cleanWs s).length : ℚ) * 3 / 4 < 100 →
      (validateRequestBody body).isValid = false ∧
      VError.tooSmall (((cleanWs s).length : ℚ) * 3 / 4) (mkDebugInfo s) ∈
        (validateRequestBody body).errors) := by
  have hie : imageDataFieldErrors body = imageDataErrors s := by
    unfold imageDataFieldErrors
    rw [himg]
    show (if s ≠ "" then imageDataErrors s else []) = imageDataErrors s
    rw [if_pos hs]
  have hrb := validateRequestBody_checks body h1 h2 h3
  constructor
  · intro hgt
    have hin : VError.sizeExceeded ((MAX_IMAGE_SIZE : ℚ) / (1024 * 1024))
        (((cleanWs s).length : ℚ) * 3 / 4 / (1024 * 1024)) ∈
        imageDataErrors s := by
      simp only [imageDataErrors]
      refine List.mem_append.mpr (Or.inl ?_)
      refine List.mem_append.mpr (Or.inl ?_)
      refine List.mem_append.mpr (Or.inl ?_)
      refine List.mem_append.mpr (Or.inr ?_)
      rw [if_pos hgt]
      exact List.mem_singleton.mpr rfl
    have hmem : VError.sizeExceeded ((MAX_IMAGE_SIZE : ℚ) / (1024 * 1024))
        (((cleanWs s).length : ℚ) * 3 / 4 / (1024 * 1024)) ∈
        (validateRequestBody body).errors := by
      rw [hrb]
      show _ ∈ requiredFieldErrors body ++ imageDataFieldErrors body ++
        mimeTypeFieldErrors body
      refine List.mem_append.mpr (Or.inl (List.mem_append.mpr (Or.inr ?_)))
      rw [hie]
      exact hin
    refine ⟨?_, hmem⟩
    rw [hrb] at hmem ⊢
    exact isEmpty_false_of_mem hmem
  · intro hlt
    have hin : VError.tooSmall (((cleanWs s).length : ℚ) * 3 / 4)
        (mkDebugInfo s) ∈ imageDataErrors s := by
      simp only [imageDataErrors]
      refine List.mem_append.mpr (Or.inl ?_)
      refine List.mem_append.mpr (Or.inl ?_)
      refine List.mem_append.mpr (Or.inr ?_)
      rw [if_pos hlt]
      exact List.mem_singleton.mpr rfl
    have hmem : VError.tooSmall (((cleanWs s).length : ℚ) * 3 / 4)
        (mkDebugInfo s) ∈ (validateRequestBody body).errors := by
      rw [hrb]
      show _ ∈ requiredFieldErrors body ++ imageDataFieldErrors body ++
        mimeTypeFieldErrors body
      refine List.mem_append.mpr (Or.inl (List.mem_append.mpr (Or.inr ?_)))
      rw [hie]
      exact hin
    refine ⟨?_, hmem⟩
    rw [hrb] at hmem ⊢
    exact isEmpty_false_of_mem hmem

/-- Witness for C7 (amended): the 4-character base64 string has estimated
size 3 bytes, under 100, and draws the too-small error. -/
theorem size_bounds_amended_witness :
    (validateRequestBody tinyImageBody).isValid = false ∧
    VError.tooSmall (((cleanWs "AAAA").length : ℚ) * 3 / 4)
        (mkDebugInfo "AAAA") ∈ (validateRequestBody tinyImageBody).errors :=
  (size_bounds_amended tinyImageBody "AAAA" rfl rfl rfl rfl (by decide)).2
    ((est_lt_min_iff (cleanWs "AAAA").length).mpr (by decide))

/-- Claim C8: a POST with a valid token and a body passing validation
whose `imageData` is a string, answered by the provider with a completion
whose trimmed text is non-empty, yields status 200; `data.caption` is the
trimmed completion text and `metadata.imageSize` is the length of the
raw, pre-clean `imageData` string. -/
theorem roundtrip_success (secret : Option String) (rqid : String) (pt : Nat)
    (req : Request) (s content : String) (fr : Option String)
    (usage : JSValue)
    (hm : req.method = "POST")
    (hauth : validateAppToken secret (appTokenOf req) = true)
    (himg : getField req.body "imageData" = JSValue.str s)
    (hval : (validateRequestBody req.body).isValid = true)
    (hcap : jsTrim content ≠ "") :
    handler secret
        (FetchOutcome.success
          { choices := [{ content := some content, finish_reason := fr }],
            usage := usage })
        rqid pt req =
      HandlerResult.success 200
        { data :=
            { caption := jsTrim content, provider := "OpenAI",
              model := "gpt-4o",
              confidence := if fr = some "stop" then "high" else "medium",
              usage := if truthy usage then usage else JSValue.null,
              processingTime := toString pt ++ "ms", requestId := rqid },
          metadata :=
            { provider := "openai", requestId := rqid, processingTime := pt,
              imageSize := JSValue.num s.length,
              mimeType := getField req.body "mimeType" } } := by
  rw [handler_success_path secret _ rqid pt req hm hauth hval]
  unfold dispatchAfterValidation processWithAIProvider
  rw [himg, processWithOpenAI_success s (getField req.body "mimeType")
    content fr usage hcap]
  unfold shapeProviderOutcome
  rw [himg]
  rfl

set_option maxRecDepth 100000 in
/-- Witness for C8: the concrete valid request with a "bark bark"
completion yields the full success envelope. -/
theorem roundtrip_success_witness :
    handler (some sampleToken)
        (FetchOutcome.success
          { choices := [{ content := some "bark bark",
                          finish_reason := some "stop" }],
            usage := JSValue.null })
        "req_4" 9 sampleRequest =
      HandlerResult.success 200
        { data :=
            { caption := jsTrim "bark bark", provider := "OpenAI",
              model := "gpt-4o",
              confidence := if (some "stop" : Option String) = some "stop"
                then "high" else "medium",
              usage := if truthy JSValue.null then JSValue.null
                else JSValue.null,
              processingTime := toString 9 ++ "ms", requestId := "req_4" },
          metadata :=
            { provider := "openai", requestId := "req_4",
              processingTime := 9,
              imageSize := JSValue.num sampleImageData.length,
              mimeType := getField sampleRequest.body "mimeType" } } :=
  roundtrip_success (some sampleToken) "req_4" 9 sampleRequest
    sampleImageData "bark bark" (some "stop") JSValue.null rfl (by decide)
    rfl
    (by show (validateRequestBody sampleBody).isValid = true
        rw [sampleBody_valid])
    (by decide)

/-- Claim C9: a truthy non-string `imageData` (with an allowed string
`mimeType`, an object body, no debug bypass) undergoes none of the
base64, size, emptiness or multiple-of-4 checks: validation reports valid
with no errors, and the handler passes the non-string `imageData` value
on to the provider call. -/
theorem nonstring_imageData_passthrough (secret : Option String)
    (fetch : FetchOutcome) (rqid : String) (pt : Nat)
    (xt auth : Option String) (body v : JSValue) (m : String)
    (h1 : truthy body = true) (h2 : jsTypeof body = "object")
    (h3 : isTrueLiteral (getField body "debugMode") = false)
    (himg : getField body "imageData" = v) (hv : truthy v = true)
    (hnstr : ∀ s, v ≠ JSValue.str s)
    (hm : getField body "mimeType" = JSValue.str m)
    (hmem : ALLOWED_IMAGE_TYPES.contains m = true)
    (hauth : validateAppToken secret (appTokenOf (mkPost xt auth body)) = true) :
    validateRequestBody body =
      { isValid := true, errors := [], debug := false } ∧
    handler secret fetch rqid pt (mkPost xt auth body) =
      shapeProviderOutcome (processWithAIProvider fetch v (JSValue.str m))
        body rqid pt := by
  have hmne : m ≠ "" := allowed_ne_empty hmem
  have ht2 : truthy (JSValue.str m) = true := by simp [truthy, hmne]
  have hreq : requiredFieldErrors body = [] := by
    unfold requiredFieldErrors
    rw [himg, hm]
    simp [hv, ht2]
  have himgE : imageDataFieldErrors body = [] := by
    unfold imageDataFieldErrors
    rw [himg]
    cases v with
    | str s => exact absurd rfl (hnstr s)
    | null => rfl
    | undefined => rfl
    | bool b => rfl
    | num n => rfl
    | obj fields => rfl
  have hmimeE : mimeTypeFieldErrors body = [] := by
    have hall : mimeTypeAllowed (JSValue.str m) = true := by
      simpa [mimeTypeAllowed] using hmem
    unfold mimeTypeFieldErrors
    rw [hm]
    simp [hall]
  have hval : validateRequestBody body =
      { isValid := true, errors := [], debug := false } := by
    rw [validateRequestBody_checks body h1 h2 h3, hreq, himgE, hmimeE]
    rfl
  refine ⟨hval, ?_⟩
  rw [handler_success_path secret fetch rqid pt _ rfl hauth
    (by show (validateRequestBody body).isValid = true
        rw [hval])]
  show dispatchAfterValidation fetch body rqid pt = _
  unfold dispatchAfterValidation
  rw [himg, hm]

/-- Witness for C9: `imageData: 5` with an allowed mimeType passes
validation and is handed to the provider call. -/
theorem nonstring_imageData_passthrough_witness :
    validateRequestBody
        (JSValue.obj [("imageData", JSValue.num 5),
          ("mimeType", JSValue.str "image/png")]) =
      { isValid := true, errors := [], debug := false } ∧
    handler (some sampleToken) FetchOutcome.abort "req_6" 1
        (mkPost (some sampleToken) none
          (JSValue.obj [("imageData", JSValue.num 5),
            ("mimeType", JSValue.str "image/png")])) =
      shapeProviderOutcome
        (processWithAIProvider FetchOutcome.abort (JSValue.num 5)
          (JSValue.str "image/png"))
        (JSValue.obj [("imageData", JSValue.num 5),
          ("mimeType", JSValue.str "image/png")])
        "req_6" 1 :=
  nonstring_imageData_passthrough (some sampleToken) FetchOutcome.abort
    "req_6" 1 (some sampleToken) none
    (JSValue.obj [("imageData", JSValue.num 5),
      ("mimeType", JSValue.str "image/png")])
    (JSValue.num 5) "image/png" rfl rfl rfl rfl rfl
    (fun _ h => JSValue.noConfusion h) rfl (by decide) (by decide)

/-- Claim C10: the bypass fires only on the strict boolean `true`: for a
body whose `debugMode` is any other value the full check pipeline runs
(and in particular the string "true" and the number 1 do not bypass);
when it fires, the result is valid with an empty error list even though
missing-field errors were recorded beforehand. -/
theorem debug_strict_equality :
    (∀ body : JSValue, truthy body = true → jsTypeof body = "object" →
      isTrueLiteral (getField body "debugMode") = false →
      validateRequestBody body =
        { isValid := (requiredFieldErrors body ++ imageDataFieldErrors body ++
            mimeTypeFieldErrors body).isEmpty,
          errors := requiredFieldErrors body ++ imageDataFieldErrors body ++
            mimeTypeFieldErrors body,
          debug := false }) ∧
    (∀ s : String, isTrueLiteral (JSValue.str s) = false) ∧
    (∀ n : Int, isTrueLiteral (JSValue.num n) = false) ∧
    isTrueLiteral (JSValue.bool false) = false ∧
    validateRequestBody (JSValue.obj [("debugMode", JSValue.str "true")]) =
      { isValid := false,
        errors := [VError.imageDataRequired, VError.mimeTypeRequired],
        debug := false } ∧
    validateRequestBody (JSValue.obj [("debugMode", JSValue.num 1)]) =
      { isValid := false,
        errors := [VError.imageDataRequired, VError.mimeTypeRequired],
        debug := false } ∧
    (∀ body : JSValue, truthy body = true → jsTypeof body = "object" →
      isTrueLiteral (getField body "debugMode") = true →
      validateRequestBody body =
        { isValid := true, errors := [], debug := true }) :=
  ⟨fun body h1 h2 h3 => validateRequestBody_checks body h1 h2 h3,
    fun _ => rfl, fun _ => rfl, rfl, rfl, rfl,
    fun body h1 h2 h3 => validateRequestBody_bypass body h1 h2 h3⟩

/-- Witness for C10: the full pipeline runs on a `debugMode: 1` body, and
the strict `debugMode: true` bypass returns valid with no errors. -/
theorem debug_strict_equality_witness :
    validateRequestBody (JSValue.obj [("debugMode", JSValue.num 1)]) =
      { isValid := (requiredFieldErrors
            (JSValue.obj [("debugMode", JSValue.num 1)]) ++
          imageDataFieldErrors (JSValue.obj [("debugMode", JSValue.num 1)]) ++
          mimeTypeFieldErrors
            (JSValue.obj [("debugMode", JSValue.num 1)])).isEmpty,
        errors := requiredFieldErrors
            (JSValue.obj [("debugMode", JSValue.num 1)]) ++
          imageDataFieldErrors (JSValue.obj [("debugMode", JSValue.num 1)]) ++
          mimeTypeFieldErrors (JSValue.obj [("debugMode", JSValue.num 1)]),
        debug := false } ∧
    validateRequestBody debugBypassBody =
      { isValid := true, errors := [], debug := true } := by
  refine ⟨debug_strict_equality.1
    (JSValue.obj [("debugMode", JSValue.num 1)]) rfl rfl rfl, ?_⟩
  exact debug_strict_equality.2.2.2.2.2.2 debugBypassBody rfl rfl rfl

end CaptionApi
